import Mathlib

/-
  Verification of the collateral-auction repository.

  Shallow embedding of src/auction_simulations.py (the canonical draft of the
  three components: SenderMessage, the population sampler, the single-run
  auction engine CollateralPositionAuction, and the Monte Carlo driver
  MonteCarloAuction).  Python floats are modelled as rationals, Python dicts
  as association lists looked up with first-match semantics (Python dicts
  have unique keys, so the two coincide on dicts as the code builds them),
  and fallible Python code as Except values over an error type mirroring the
  Python exceptions that the relevant statements can raise.
-/

/-- Python exceptions that the embedded code can raise. -/
inductive PyError where
  | nameError : String → PyError
  | typeError : String → PyError
  | valueError : String → PyError
  | attributeError : String → PyError
deriving DecidableEq, Repr

/-- SenderMessage (src/auction_simulations.py lines 12-28): immutable value
object with a message id and the two private values. -/
structure SenderMessage where
  message_id : Int
  sender_value : ℚ
  recipient_value : ℚ
deriving DecidableEq, Repr

/-- Python dict lookup with default, `d.get(k, dflt)`. -/
def pyGet {α β : Type} [BEq α] (d : List (α × β)) (k : α) (dflt : β) : β :=
  (List.lookup k d).getD dflt

/-- A sender report, `Dict[str, float]` in the source. -/
def SenderReport : Type := List (String × ℚ)

/-- The data attributes of a CollateralPositionAuction instance: the two
constructor data parameters plus the five derived-state fields that
run_auction populates (src/auction_simulations.py lines 73-85).  The policy
functions stored on the instance take this data view of `self` (they cannot
be fields of a structure that they also consume, so the embedding splits the
Python object into its data part, here, and its four function-valued
attributes, in `CollateralPositionAuction` below). -/
structure AuctionState where
  position_effects : List (Int × ℚ)
  sender_message_types : List SenderMessage
  expected_liability_oracle : SenderMessage → ℚ
  sender_reports : List (SenderMessage × SenderReport)
  sender_allocations : List (SenderMessage × Int)
  sender_payments : List (SenderMessage × ℚ)
  expected_sender_utilities : List (SenderMessage × ℚ)

/-- A CollateralPositionAuction instance: the four policy-function
attributes stored by __init__ together with the data attributes
(src/auction_simulations.py lines 51-85). -/
structure CollateralPositionAuction where
  allocate_position_func : AuctionState → List (SenderMessage × Int)
  calculate_payments_func : AuctionState → List (SenderMessage × ℚ)
  set_collateral_audit_func : AuctionState → (SenderMessage → ℚ)
  sender_reports_func : AuctionState → List (SenderMessage × SenderReport)
  state : AuctionState

/-- CollateralPositionAuction.__init__ (lines 54-85): stores the four policy
functions, position_effects and the population, and initialises the derived
state (`expected_liability_oracle = lambda x: 0`, the four dicts empty). -/
def CollateralPositionAuction.init
    (allocate_position_func : AuctionState → List (SenderMessage × Int))
    (calculate_payments_func : AuctionState → List (SenderMessage × ℚ))
    (set_collateral_audit_func : AuctionState → (SenderMessage → ℚ))
    (sender_reports_func : AuctionState → List (SenderMessage × SenderReport))
    (position_effects : List (Int × ℚ))
    (sender_message_types : List SenderMessage) : CollateralPositionAuction :=
  { allocate_position_func := allocate_position_func
    calculate_payments_func := calculate_payments_func
    set_collateral_audit_func := set_collateral_audit_func
    sender_reports_func := sender_reports_func
    state :=
      { position_effects := position_effects
        sender_message_types := sender_message_types
        expected_liability_oracle := fun _ => 0
        sender_reports := []
        sender_allocations := []
        sender_payments := []
        expected_sender_utilities := [] } }

/-- The utility expression of _calculate_expected_utilities (lines 103-107)
for one sender: allocation (default 0) times the position effect for the
message id (default 0) times the sender value, minus the payment (default 0),
minus the expected liability. -/
def utilityOf (s : AuctionState) (sender_message : SenderMessage) : ℚ :=
  ((pyGet s.sender_allocations sender_message 0 : Int) : ℚ)
      * pyGet s.position_effects sender_message.message_id 0
      * sender_message.sender_value
    - pyGet s.sender_payments sender_message 0
    - s.expected_liability_oracle sender_message

/-- CollateralPositionAuction._calculate_expected_utilities (lines 95-109):
builds the dict mapping each sender of the population to its utility. -/
def calculate_expected_utilities (s : AuctionState) : List (SenderMessage × ℚ) :=
  s.sender_message_types.map (fun sender_message => (sender_message, utilityOf s sender_message))

/-- Step 1 of run_auction (line 89):
`self.expected_liability_oracle = self.set_collateral_audit_func(self)`. -/
def auditStep (a : CollateralPositionAuction) : CollateralPositionAuction :=
  { a with state :=
      { a.state with expected_liability_oracle := a.set_collateral_audit_func a.state } }

/-- Step 2 of run_auction (line 90):
`self.sender_reports = self.sender_reports_func(self)`. -/
def reportStep (a : CollateralPositionAuction) : CollateralPositionAuction :=
  { a with state := { a.state with sender_reports := a.sender_reports_func a.state } }

/-- Step 3 of run_auction (line 91):
`self.sender_allocations = self.allocate_position_func(self)`. -/
def allocationStep (a : CollateralPositionAuction) : CollateralPositionAuction :=
  { a with state :=
      { a.state with sender_allocations := a.allocate_position_func a.state } }

/-- Step 4 of run_auction (line 92):
`self.sender_payments = self.calculate_payments_func(self)`. -/
def paymentStep (a : CollateralPositionAuction) : CollateralPositionAuction :=
  { a with state :=
      { a.state with sender_payments := a.calculate_payments_func a.state } }

/-- Step 5 of run_auction (line 93):
`self.expected_sender_utilities = self._calculate_expected_utilities()`. -/
def utilityStep (a : CollateralPositionAuction) : CollateralPositionAuction :=
  { a with state :=
      { a.state with expected_sender_utilities := calculate_expected_utilities a.state } }

/-- CollateralPositionAuction.run_auction (lines 87-93): the five sequential
assignments to self, each later one seeing the fields written by the earlier
ones. -/
def run_auction (a : CollateralPositionAuction) : CollateralPositionAuction :=
  let s1 := { a.state with expected_liability_oracle := a.set_collateral_audit_func a.state }
  let s2 := { s1 with sender_reports := a.sender_reports_func s1 }
  let s3 := { s2 with sender_allocations := a.allocate_position_func s2 }
  let s4 := { s3 with sender_payments := a.calculate_payments_func s3 }
  { a with state := { s4 with expected_sender_utilities := calculate_expected_utilities s4 } }

/-- The property CollateralPositionAuction.sender_expected_utilities
(lines 111-114): returns the stored expected_sender_utilities attribute. -/
def sender_expected_utilities (a : CollateralPositionAuction) : List (SenderMessage × ℚ) :=
  a.state.expected_sender_utilities

/-
  The pseudo-random stream.  np.random is a single module-global stream;
  it is embedded as an explicit state value threaded through the code.
  Modelled from the spec: the contents of the stream (the numbers numpy
  actually produces) are left abstract here; what matters, and what the spec
  states, is that the stream after np.random.seed(s) is a function of s
  alone, and that draws advance a counter deterministically.
-/

/-- State of the global np.random stream: the seed that initialised it and
how many draws have been consumed since. -/
structure RngState where
  seedVal : Nat
  counter : Nat
deriving DecidableEq, Repr

/-- The function np.random.seed: resets the global stream to the state determined by the
seed alone. -/
def npSeed (s : Nat) : RngState := ⟨s, 0⟩

/-- A continuous distribution object as the sampler consumes it: a rule
producing one draw from a given stream position (scipy rv_continuous lives
outside the repository; an abstract deterministic draw function suffices). -/
structure ValueDist where
  sample : RngState → ℚ

/-- Produce n i.i.d. draws from a distribution, advancing the stream. -/
def drawList (d : ValueDist) (n : Nat) (g : RngState) : List ℚ × RngState :=
  ((List.range n).map (fun i => d.sample ⟨g.seedVal, g.counter + i⟩),
   ⟨g.seedVal, g.counter + n⟩)

/-- The method dist.rvs(size=n) as called on line 42/43: numpy rejects a negative size
with ValueError; size 0 yields an empty array. -/
def rvs (d : ValueDist) (size : Int) (g : RngState) : Except PyError (List ℚ × RngState) :=
  if size < 0 then .error (.valueError "negative dimensions are not allowed")
  else .ok (drawList d size.toNat g)

/-- The expression np.arange(1, num_messages + 1) on line 41. -/
def arangeFromOne (num_messages : Int) : List Int :=
  (List.range num_messages.toNat).map (fun i => (i : Int) + 1)

/-- The keyword parameters accepted by SenderMessage.__init__
(src/auction_simulations.py line 15). -/
def senderMessageInitKeywords : List String :=
  ["message_id", "sender_value", "recipient_value"]

/-- A Python call `SenderMessage(id=i, sender_value=sv, recipient_value=rv)`
as written on line 46 of src/auction_simulations.py: Python matches the
keyword names against the parameters of __init__ and raises TypeError on an
unexpected keyword.  The keyword `id` is not among the accepted parameters
(`message_id` is), so this call raises. -/
def senderMessageCallKw (idKw : String) (i : Int) (sv rv : ℚ) :
    Except PyError SenderMessage :=
  if idKw ∈ senderMessageInitKeywords then .ok ⟨i, sv, rv⟩
  else .error (.typeError ("unexpected keyword argument " ++ idKw))

/-- sample_one_message_set (src/auction_simulations.py lines 30-49): builds
ids 1..n, draws the two value arrays, then constructs the SenderMessage list
by zipping — each construction passing the id under the keyword `id`. -/
def sample_one_message_set (num_messages : Int)
    (sender_value_dist recipient_value_dist : ValueDist) (g : RngState) :
    Except PyError (List SenderMessage × RngState) := do
  let sender_ids := arangeFromOne num_messages
  let (sender_values, g1) ← rvs sender_value_dist num_messages g
  let (recipient_values, g2) ← rvs recipient_value_dist num_messages g1
  let sender_messages ← (sender_ids.zip (sender_values.zip recipient_values)).mapM
    (fun p => senderMessageCallKw "id" p.1 p.2.1 p.2.2)
  return (sender_messages, g2)

/-
  MonteCarloAuction (src/auction_simulations.py lines 116-190).
-/

/-- The auction construction parameters the Monte Carlo driver holds
(`auction_parameters` in the source, a Dict[str, Any]; flattened here into
the typed fields the spec names in section 6). -/
structure AuctionParameters where
  num_senders : Nat
  sender_value_dist : ValueDist
  recipient_value_dist : ValueDist
  position_effects : List (Int × ℚ)
  allocate_position_func : AuctionState → List (SenderMessage × Int)
  calculate_payments_func : AuctionState → List (SenderMessage × ℚ)
  set_collateral_audit_func : AuctionState → (SenderMessage → ℚ)
  sender_reports_func : AuctionState → List (SenderMessage × SenderReport)
  reduction : List (SenderMessage × ℚ) → ℚ

/-- A MonteCarloAuction instance after construction. -/
structure MonteCarloAuction where
  auction_parameters : AuctionParameters
  num_simulations : Int
  sender_type_distribution : List (String × ℚ)
  seed : Option Nat
  results : List ℚ

/-- The function np.isclose with the default tolerances rtol=1e-5 and atol=1e-8:
close iff the absolute difference is at most atol + rtol * abs(b). -/
def npIsClose (a b : ℚ) : Bool :=
  |a - b| ≤ 1 / 100000000 + (1 / 100000) * |b|

/-- Sum of the values of the sender-type distribution dict,
`sum(sender_type_distribution.values())` on line 141. -/
def distValuesSum (dist : List (String × ℚ)) : ℚ :=
  (dist.map (fun p => p.2)).sum

/-- MonteCarloAuction.__init__ (lines 119-153): raises ValueError (the
InvalidParameter of the spec taxonomy) if num_simulations < 1, then raises
ValueError if the distribution values are not np.isclose to 1; otherwise
stores the parameters, seeds the global stream when a seed is given, and
starts with an empty results list. -/
def MonteCarloAuction.init (auction_parameters : AuctionParameters)
    (num_simulations : Int) (sender_type_distribution : List (String × ℚ))
    (seed : Option Nat) (g : RngState) :
    Except PyError (MonteCarloAuction × RngState) :=
  if num_simulations < 1 then
    .error (.valueError "Number of simulations must be positive")
  else if ¬ npIsClose (distValuesSum sender_type_distribution) 1 then
    .error (.valueError "Sender type probabilities must sum to 1")
  else
    .ok ({ auction_parameters := auction_parameters
           num_simulations := num_simulations
           sender_type_distribution := sender_type_distribution
           seed := seed
           results := [] },
         match seed with
         | some s => npSeed s
         | none => g)

/-- The names bound at module scope in auction_simulations.py: the imports
(lines 1-4) and the four module-level definitions.  The import that would
have bound `generate_sender_message_set` (line 6) is commented out, and no
definition of that name exists anywhere in the repository. -/
def auctionSimulationsModuleNames : List String :=
  ["Dict", "List", "Optional", "Tuple", "Callable", "Any", "np", "npt", "stats",
   "SenderMessage", "sample_one_message_set", "CollateralPositionAuction",
   "MonteCarloAuction"]

/-- Evaluating a bare name in the module: NameError when unbound. -/
def moduleNameLookup (name : String) : Except PyError Unit :=
  if name ∈ auctionSimulationsModuleNames then .ok ()
  else .error (.nameError ("name " ++ name ++ " is not defined"))

/-- MonteCarloAuction.sample_senders_and_run (lines 155-170): the first
statement of the body evaluates the bare name `generate_sender_message_set`,
which is unbound in the module, so the call raises NameError before anything
else happens (were it bound, the body would go on to sample one population
outside the trial loop and evaluate `self.auction(...)`, a call on a
CollateralPositionAuction instance, which is not callable). -/
def sample_senders_and_run (_mc : MonteCarloAuction) (_g : RngState) :
    Except PyError (List ℚ × RngState) :=
  match moduleNameLookup "generate_sender_message_set" with
  | .error e => .error e
  | .ok _ =>
      .error (.typeError "CollateralPositionAuction object is not callable")

/-- The attributes a MonteCarloAuction object carries: the methods and
properties of the class body (lines 119-190) and the instance attributes
assigned in __init__. -/
def monteCarloAuctionAttributes : List String :=
  ["sample_senders_and_run", "get_statistics", "results", "reset",
   "auction", "auction_parameters", "num_simulations",
   "sender_type_distribution", "seed", "_results"]

/-- Attribute lookup `self.name` on a MonteCarloAuction object:
AttributeError when the object has no such attribute. -/
def mcGetAttr (name : String) : Except PyError Unit :=
  if name ∈ monteCarloAuctionAttributes then .ok ()
  else .error (.attributeError name)

/-- The function np.mean of a list of floats. -/
def npMean (l : List ℚ) : ℚ := l.sum / (l.length : ℚ)

/-- The square of np.std of a list of floats: np.std is the population
standard deviation, the square root of the mean of the squared deviations
from the mean.  Working in ℚ, the model carries the variance; the source
returns its square root. -/
def npVarPop (l : List ℚ) : ℚ :=
  npMean (l.map (fun x => (x - npMean l) ^ 2))

/-- MonteCarloAuction.get_statistics (lines 172-179): the body first
evaluates `self.run_simulation()`; the object has no attribute of that name
(the results-producing method of this draft is named sample_senders_and_run),
so the lookup raises AttributeError and the final line, which would return
the pair of np.mean and np.std of the results, is unreachable.  In the
unreachable branch the model returns the mean and the squared std. -/
def get_statistics (mc : MonteCarloAuction) : Except PyError (ℚ × ℚ) :=
  match mcGetAttr "run_simulation" with
  | .error e => .error e
  | .ok _ => .ok (npMean mc.results, npVarPop mc.results)

/-- MonteCarloAuction.reset (lines 186-190): clears the recorded results
and, when a seed was supplied, re-seeds the global stream to the original
seed value. -/
def MonteCarloAuction.reset (mc : MonteCarloAuction) (g : RngState) :
    MonteCarloAuction × RngState :=
  ({ mc with results := [] },
   match mc.seed with
   | some s => npSeed s
   | none => g)

/-
  The trial loop.
-/

/-- Modelled from the spec: the public operation `run_simulation` is called
by get_statistics but is defined nowhere under src/ (the draft
sample_senders_and_run is its unfinished counterpart).  Per spec section 4.3
each trial first samples a fresh population via the Sampler with the
configured distributions and count, ids 1..n in order. -/
def sampleTrialPopulation (params : AuctionParameters) (g : RngState) :
    List SenderMessage × RngState :=
  let (sender_values, g1) := drawList params.sender_value_dist params.num_senders g
  let (recipient_values, g2) := drawList params.recipient_value_dist params.num_senders g1
  (((arangeFromOne (params.num_senders : Int)).zip
      (sender_values.zip recipient_values)).map
    (fun p => ⟨p.1, p.2.1, p.2.2⟩), g2)

/-- Modelled from the spec: one trial of run_simulation — sample a fresh
population, construct a new CollateralPositionAuction over it with the
configured policy functions and position effects, invoke run, and record the
caller-selected scalar reduction of the per-sender utilities. -/
def runTrial (params : AuctionParameters) (g : RngState) : ℚ × RngState :=
  let (population, g1) := sampleTrialPopulation params g
  let auction := CollateralPositionAuction.init
    params.allocate_position_func params.calculate_payments_func
    params.set_collateral_audit_func params.sender_reports_func
    params.position_effects population
  let ran := run_auction auction
  (params.reduction ran.state.expected_sender_utilities, g1)

/-- Modelled from the spec: the trial loop of run_simulation, consuming the
shared stream strictly sequentially in trial order. -/
def runTrials (params : AuctionParameters) : Nat → RngState → List ℚ × RngState
  | 0, g => ([], g)
  | n + 1, g =>
      let (r, g1) := runTrial params g
      let (rs, g2) := runTrials params n g1
      (r :: rs, g2)

/-- Modelled from the spec: `run_simulation` runs num_simulations trials and
records the ordered sequence of their results on the instance. -/
def run_simulation (mc : MonteCarloAuction) (g : RngState) :
    MonteCarloAuction × RngState :=
  let (rs, g1) := runTrials mc.auction_parameters mc.num_simulations.toNat g
  ({ mc with results := rs }, g1)

/-- The result sequence obtained by constructing a seeded MonteCarloAuction
from a given prior stream state and running the simulation. -/
def seededResults (params : AuctionParameters) (num_simulations : Int)
    (dist : List (String × ℚ)) (s : Nat) (g : RngState) :
    Except PyError (List ℚ) :=
  (MonteCarloAuction.init params num_simulations dist (some s) g).map
    (fun p => (run_simulation p.1 p.2).1.results)

/-- Construct seeded, run once, reset, run again: the pair of the first and
the second result sequence. -/
def resetRerunResults (params : AuctionParameters) (num_simulations : Int)
    (dist : List (String × ℚ)) (s : Nat) (g : RngState) :
    Except PyError (List ℚ × List ℚ) :=
  (MonteCarloAuction.init params num_simulations dist (some s) g).map
    (fun p =>
      let r1 := run_simulation p.1 p.2
      let r2 := MonteCarloAuction.reset r1.1 r1.2
      (r1.1.results, (run_simulation r2.1 r2.2).1.results))

/-
  Concrete fixtures used by the witnesses and counterexamples below.
-/

/-- A sender with message id 1 and sender value 10. -/
def exSender1 : SenderMessage := ⟨1, 10, 0⟩

/-- A sender with message id 2 and sender value 10. -/
def exSender2 : SenderMessage := ⟨2, 10, 0⟩

/-- A sender outside every fixture population. -/
def exOutsider : SenderMessage := ⟨99, 7, 7⟩

/-- A concrete auction over [exSender1, exSender2]: position effect 2 for
message id 1, allocation 1 for exSender1 only, payment 3 for both, constant
expected liability 1. -/
def exAuction : CollateralPositionAuction :=
  CollateralPositionAuction.init
    (fun _ => [(exSender1, 1)])
    (fun _ => [(exSender1, 3), (exSender2, 3)])
    (fun _ => fun _ => 1)
    (fun _ => [])
    [(1, 2)]
    [exSender1, exSender2]

/-- A single-sender auction: sender value 1, effect 1, allocation 1, no
payment, no liability; its post-run utility is 1. -/
def viewAuction : CollateralPositionAuction :=
  CollateralPositionAuction.init
    (fun s => s.sender_message_types.map (fun sm => (sm, 1)))
    (fun _ => [])
    (fun _ => fun _ => 0)
    (fun _ => [])
    [(1, 1)]
    [⟨1, 1, 0⟩]

/-- The viewAuction after a run and a subsequent direct mutation of the
sender_payments attribute. -/
def viewAuctionMutated : CollateralPositionAuction :=
  let ran := run_auction viewAuction
  { ran with state := { ran.state with sender_payments := [(⟨1, 1, 0⟩, 5)] } }

/-- A post-run style auction state used to exercise the unknown-key policy:
population [exSender1], allocation 1, payment 3, effect 2, liability 1. -/
def c8State : AuctionState :=
  { position_effects := [(1, 2)]
    sender_message_types := [exSender1]
    expected_liability_oracle := fun _ => 1
    sender_reports := []
    sender_allocations := [(exSender1, 1)]
    sender_payments := [(exSender1, 3)]
    expected_sender_utilities := [] }

/-- A trivial distribution object producing the stream counter as the draw,
so that consecutive draws differ. -/
def counterDist : ValueDist := ⟨fun g => (g.counter : ℚ)⟩

/-- A constant distribution object. -/
def zeroDist : ValueDist := ⟨fun _ => 0⟩

/-- Concrete auction parameters for the Monte Carlo fixtures: one sender per
trial, allocation 1 for every sender, no payments, no liability, effect 1
for message id 1, total utility as the scalar reduction. -/
def exParams : AuctionParameters :=
  { num_senders := 1
    sender_value_dist := counterDist
    recipient_value_dist := zeroDist
    position_effects := [(1, 1)]
    allocate_position_func := fun s => s.sender_message_types.map (fun sm => (sm, 1))
    calculate_payments_func := fun _ => []
    set_collateral_audit_func := fun _ => fun _ => 0
    sender_reports_func := fun _ => []
    reduction := fun l => (l.map (fun p => p.2)).sum }

/-- A sender-type distribution summing exactly to 1. -/
def exGoodDist : List (String × ℚ) := [("a", 1)]

/-- The sender-type distribution of the validation example, summing to 0.9. -/
def exBadDist : List (String × ℚ) := [("a", 2/5), ("b", 1/2)]

/-- A sender-type distribution summing to 1.000001: off from 1 by more than
1e-9 but within the default np.isclose tolerance. -/
def exNearDist : List (String × ℚ) := [("a", 1000001/1000000)]

/-- An arbitrary prior state of the global random stream. -/
def g0 : RngState := ⟨0, 0⟩

/-
  Helper lemmas.
-/

/-- Looking up an element of l in the dict pairing each element of l with
f of it yields f of the element. -/
theorem lookup_map_of_mem {α β : Type} [DecidableEq α] (l : List α) (f : α → β)
    (x : α) (h : x ∈ l) :
    List.lookup x (l.map (fun a => (a, f a))) = some (f x) := by
  induction l with
  | nil => cases h
  | cons a t ih =>
    simp only [List.map, List.lookup]
    by_cases hx : x = a
    · subst hx; simp
    · have hb : (x == a) = false := by simp [hx]
      rw [hb]
      exact ih (by
        cases h with
        | head => exact absurd rfl hx
        | tail _ ht => exact ht)

/-- A dict entry under a key different from the one looked up does not
change the defaulted lookup. -/
theorem pyGet_cons_ne {α β : Type} [DecidableEq α] (k x : α) (v dflt : β)
    (d : List (α × β)) (h : x ≠ k) :
    pyGet ((k, v) :: d) x dflt = pyGet d x dflt := by
  have hb : (x == k) = false := by simp [h]
  simp [pyGet, List.lookup, hb]

/-
  Claims.
-/

/-- C3: run_auction executes its five steps in the fixed order audit oracle,
reports, allocations, payments, utilities; the auction object passed to the
allocation function and to the payment function already carries the
expected_liability_oracle produced by step 1 and the sender_reports produced
by step 2. -/
theorem run_auction_step_order (a : CollateralPositionAuction) :
    run_auction a
      = utilityStep (paymentStep (allocationStep (reportStep (auditStep a)))) ∧
    (reportStep (auditStep a)).state.expected_liability_oracle
      = a.set_collateral_audit_func a.state ∧
    (reportStep (auditStep a)).state.sender_reports
      = a.sender_reports_func (auditStep a).state ∧
    (allocationStep (reportStep (auditStep a))).state.expected_liability_oracle
      = a.set_collateral_audit_func a.state ∧
    (allocationStep (reportStep (auditStep a))).state.sender_reports
      = a.sender_reports_func (auditStep a).state :=
  ⟨rfl, rfl, rfl, rfl, rfl⟩

/-- C10: run_auction changes only derived state; the four stored policy
functions, the population and the position_effects mapping are unchanged. -/
theorem run_auction_frame (a : CollateralPositionAuction) :
    (run_auction a).allocate_position_func = a.allocate_position_func ∧
    (run_auction a).calculate_payments_func = a.calculate_payments_func ∧
    (run_auction a).set_collateral_audit_func = a.set_collateral_audit_func ∧
    (run_auction a).sender_reports_func = a.sender_reports_func ∧
    (run_auction a).state.sender_message_types = a.state.sender_message_types ∧
    (run_auction a).state.position_effects = a.state.position_effects :=
  ⟨rfl, rfl, rfl, rfl, rfl, rfl⟩

/-- C2: the trial-running method of MonteCarloAuction raises NameError on
every input, because its first statement evaluates the unbound module name
generate_sender_message_set; it never returns a sequence of trial results. -/
theorem sample_senders_and_run_raises (mc : MonteCarloAuction) (g : RngState) :
    sample_senders_and_run mc g
      = .error (.nameError "name generate_sender_message_set is not defined") := by
  simp [sample_senders_and_run, moduleNameLookup, auctionSimulationsModuleNames]

/-- C9 counterexample: an auction state after a run in which the
sender_payments attribute was subsequently changed; the sender_expected_utilities
view still returns the utilities computed during the run, not the utility
formula applied to the fields as they are at read time. -/
theorem view_stale_after_mutation :
    sender_expected_utilities viewAuctionMutated
      ≠ calculate_expected_utilities viewAuctionMutated.state := by
  simp [viewAuctionMutated, viewAuction, CollateralPositionAuction.init, run_auction,
    sender_expected_utilities, calculate_expected_utilities, utilityOf, pyGet, List.lookup]
  norm_num

/-- C9 amended: sender_expected_utilities returns the expected_sender_utilities
attribute cached by the last run_auction; immediately after run_auction, with
no intervening mutation of the derived fields, this coincides with the utility
formula applied to the current fields, but the view is not recomputed at read
time. -/
theorem view_returns_run_cached_utilities (a : CollateralPositionAuction) :
    sender_expected_utilities (run_auction a)
      = calculate_expected_utilities (run_auction a).state := rfl

/-- C1: after run_auction, the expected utility recorded for every sender
of the population equals allocation times position effect (keyed by the
message id, default 0) times sender value, minus payment, minus the
liability-oracle value, with allocation and payment defaulting to 0 when the
sender is absent from the returned dicts; concretely, allocation 1, effect
2, sender value 10, payment 3 and liability 1 give utility 16, and a sender
absent from the allocation dict gets minus payment minus liability. -/
theorem run_auction_utility_formula :
    (∀ (a : CollateralPositionAuction) (sm : SenderMessage),
        sm ∈ a.state.sender_message_types →
        List.lookup sm (sender_expected_utilities (run_auction a))
          = some (utilityOf (run_auction a).state sm)) ∧
    List.lookup exSender1 (sender_expected_utilities (run_auction exAuction))
      = some 16 ∧
    List.lookup exSender2 (sender_expected_utilities (run_auction exAuction))
      = some (-4) := by
  refine ⟨fun a sm h => lookup_map_of_mem _ _ _ h, ?_, ?_⟩
  · simp [exAuction, CollateralPositionAuction.init, run_auction, sender_expected_utilities,
      calculate_expected_utilities, utilityOf, pyGet, List.lookup, exSender1, exSender2,
      (by decide : ((⟨2,10,0⟩ : SenderMessage) == (⟨1,10,0⟩ : SenderMessage)) = false),
      (by decide : ((⟨1,10,0⟩ : SenderMessage) == (⟨2,10,0⟩ : SenderMessage)) = false)]
    norm_num
  · simp [exAuction, CollateralPositionAuction.init, run_auction, sender_expected_utilities,
      calculate_expected_utilities, utilityOf, pyGet, List.lookup, exSender1, exSender2,
      (by decide : ((⟨2,10,0⟩ : SenderMessage) == (⟨1,10,0⟩ : SenderMessage)) = false),
      (by decide : ((⟨1,10,0⟩ : SenderMessage) == (⟨2,10,0⟩ : SenderMessage)) = false)]
    norm_num

/-- C1 witness: the formula instantiated at exSender1 in the concrete
auction, with the membership hypothesis discharged. -/
theorem run_auction_utility_formula_witness :
    List.lookup exSender1 (sender_expected_utilities (run_auction exAuction))
      = some (utilityOf (run_auction exAuction).state exSender1) :=
  run_auction_utility_formula.1 exAuction exSender1 (by decide)

/-- C8: the auction applies the single consistent policy of ignoring
mapping entries keyed by a sender absent from the population: prepending
such entries to the allocation and payment dicts leaves every population
sender with an unchanged computed utility and causes no error, and the
utility calculation ignores the sender_reports dict entirely. -/
theorem unknown_keys_ignored :
    (∀ (s : AuctionState) (k : SenderMessage) (vI : Int) (vQ : ℚ),
        k ∉ s.sender_message_types →
        calculate_expected_utilities
          { s with sender_allocations := (k, vI) :: s.sender_allocations,
                   sender_payments := (k, vQ) :: s.sender_payments }
          = calculate_expected_utilities s) ∧
    (∀ (s : AuctionState) (r : List (SenderMessage × SenderReport)),
        calculate_expected_utilities { s with sender_reports := r }
          = calculate_expected_utilities s) := by
  refine ⟨fun s k vI vQ hk => ?_, fun s r => rfl⟩
  unfold calculate_expected_utilities
  apply List.map_congr_left
  intro sm hm
  have hne : sm ≠ k := by intro he; exact hk (he ▸ hm)
  have h1 : pyGet ((k, vI) :: s.sender_allocations) sm (0 : Int)
      = pyGet s.sender_allocations sm 0 :=
    pyGet_cons_ne k sm vI 0 s.sender_allocations hne
  have h2 : pyGet ((k, vQ) :: s.sender_payments) sm (0 : ℚ)
      = pyGet s.sender_payments sm 0 :=
    pyGet_cons_ne k sm vQ 0 s.sender_payments hne
  simp [utilityOf, h1, h2]

/-- C8 witness: the unknown-key entries instantiated at a concrete state
and outsider, with the non-membership hypothesis discharged. -/
theorem unknown_keys_ignored_witness :
    calculate_expected_utilities
      { c8State with sender_allocations := (exOutsider, 1) :: c8State.sender_allocations,
                     sender_payments := (exOutsider, 5) :: c8State.sender_payments }
      = calculate_expected_utilities c8State :=
  unknown_keys_ignored.1 c8State exOutsider 1 5 (by decide)

/-- C4: the sampler never returns a populated message list — for every
requested count of at least 1, the first SenderMessage construction passes
the keyword `id`, which SenderMessage.__init__ does not accept, so the call
raises TypeError; and for a count of 0 (below the positive bound the claim
requires rejected) it succeeds with an empty list, raising no
InvalidParameter error at all. -/
theorem sampler_keyword_bug :
    (∀ (n : Int), 1 ≤ n → ∀ (d1 d2 : ValueDist) (g : RngState),
        sample_one_message_set n d1 d2 g
          = .error (.typeError "unexpected keyword argument id")) ∧
    (∀ (d1 d2 : ValueDist) (g : RngState),
        sample_one_message_set 0 d1 d2 g = .ok ([], g)) := by
  refine ⟨?_, fun d1 d2 g => rfl⟩
  intro n hn d1 d2 g
  obtain ⟨k, hk⟩ : ∃ k : Nat, n.toNat = k + 1 := ⟨n.toNat - 1, by omega⟩
  have hnneg : ¬ (n < 0) := by omega
  simp [sample_one_message_set, rvs, hnneg, arangeFromOne, drawList, hk,
    List.range_succ_eq_map, senderMessageCallKw, senderMessageInitKeywords,
    bind, Except.bind, List.mapM.loop]

/-- C4 witness: the sampler evaluated at the concrete count 5 of the claim,
with the count bound discharged. -/
theorem sampler_keyword_bug_witness :
    sample_one_message_set 5 zeroDist zeroDist g0
      = .error (.typeError "unexpected keyword argument id") :=
  sampler_keyword_bug.1 5 (by norm_num) zeroDist zeroDist g0

/-- C5 counterexample: a sender-type distribution summing to 1.000001 is off
from 1 by more than the claimed tolerance 1e-9, yet constructing a
MonteCarloAuction with it succeeds — the code only rejects sums outside the
default np.isclose band. -/
theorem init_accepts_sum_beyond_claimed_tolerance :
    |distValuesSum exNearDist - 1| > 1/1000000000 ∧
    (MonteCarloAuction.init exParams 3 exNearDist none g0).isOk = true := by
  have h : distValuesSum exNearDist - 1 = 1/1000000 := by
    norm_num [distValuesSum, exNearDist]
  have hc : npIsClose (distValuesSum exNearDist) 1 = true := by
    rw [npIsClose, decide_eq_true_eq, h, abs_of_pos (by norm_num)]
    norm_num
  constructor
  · rw [h, abs_of_pos (by norm_num)]; norm_num
  · simp [MonteCarloAuction.init, hc, Except.isOk, Except.toBool]

/-- C5 amended: construction fails (with the ValueError the spec taxonomy
calls InvalidParameter) exactly when num_simulations < 1 or the sender-type
distribution values fail the default np.isclose comparison with 1 (absolute
difference above 1e-8 + 1e-5, not the claimed 1e-9); in particular
num_simulations 0 is rejected and the distribution summing to 0.9 is
rejected, and on failure no instance is produced, so no simulation can
start. -/
theorem init_invalidparameter_iff :
    (∀ (params : AuctionParameters) (n : Int) (dist : List (String × ℚ))
        (seed : Option Nat) (g : RngState),
        (MonteCarloAuction.init params n dist seed g).isOk = false
          ↔ n < 1 ∨ npIsClose (distValuesSum dist) 1 = false) ∧
    (MonteCarloAuction.init exParams 0 exGoodDist none g0).isOk = false ∧
    (MonteCarloAuction.init exParams 3 exBadDist none g0).isOk = false := by
  have hiff : ∀ (params : AuctionParameters) (n : Int) (dist : List (String × ℚ))
      (seed : Option Nat) (g : RngState),
      (MonteCarloAuction.init params n dist seed g).isOk = false
        ↔ n < 1 ∨ npIsClose (distValuesSum dist) 1 = false := by
    intro params n dist seed g
    by_cases h1 : n < 1
    · simp [MonteCarloAuction.init, h1, Except.isOk, Except.toBool]
    · by_cases h2 : npIsClose (distValuesSum dist) 1 = true
      · simp [MonteCarloAuction.init, h1, h2, Except.isOk, Except.toBool]
      · simp [MonteCarloAuction.init, h1, h2, Except.isOk, Except.toBool]
  have hbad : npIsClose (distValuesSum exBadDist) 1 = false := by
    have h : distValuesSum exBadDist - 1 = -(1/10) := by
      norm_num [distValuesSum, exBadDist]
    rw [npIsClose, decide_eq_false_iff_not, h, abs_neg, abs_of_pos (by norm_num)]
    norm_num
  refine ⟨hiff, ?_, ?_⟩
  · exact (hiff exParams 0 exGoodDist none g0).mpr (Or.inl (by norm_num))
  · exact (hiff exParams 3 exBadDist none g0).mpr (Or.inr hbad)

/-- C6: get_statistics raises AttributeError on every instance, because its
body calls self.run_simulation() and no attribute of that name exists on
MonteCarloAuction; the statistics the claim specifies — which the
unreachable final line would compute — are the mean 2 and the population
standard deviation near 0.8165 (squared: 2/3) for the trial results
[1, 2, 3]. -/
theorem get_statistics_attribute_error :
    (∀ (mc : MonteCarloAuction),
        get_statistics mc = .error (.attributeError "run_simulation")) ∧
    npMean [1, 2, 3] = 2 ∧
    npVarPop [1, 2, 3] = 2/3 ∧
    |(8165/10000 : ℚ)^2 - 2/3| < 1/10000 := by
  refine ⟨fun mc => ?_, ?_, ?_, ?_⟩
  · simp [get_statistics, mcGetAttr, monteCarloAuctionAttributes]
  · norm_num [npMean]
  · norm_num [npVarPop, npMean]
  · rw [show ((8165/10000 : ℚ)^2 - 2/3) = 67/12000000 by norm_num,
      abs_of_pos (by norm_num)]
    norm_num

/-- C7: seeding is deterministic — two MonteCarloAuction instances
constructed with identical parameters and the same seed yield identical
result sequences from the simulation run regardless of the prior state of
the global random stream, and after a run, reset clears the results and
re-seeds the stream to its original value, so a subsequent run reproduces
exactly the first result sequence. -/
theorem seeded_run_deterministic :
    (∀ (params : AuctionParameters) (n : Int) (dist : List (String × ℚ))
        (s : Nat) (g1 g2 : RngState),
        seededResults params n dist s g1 = seededResults params n dist s g2) ∧
    (∀ (params : AuctionParameters) (n : Int) (dist : List (String × ℚ))
        (s : Nat) (g : RngState) (r1 r2 : List ℚ),
        resetRerunResults params n dist s g = .ok (r1, r2) → r1 = r2) := by
  refine ⟨fun _ _ _ _ _ _ => rfl, ?_⟩
  intro params n dist s g r1 r2 h
  unfold resetRerunResults MonteCarloAuction.init at h
  split at h
  · exact absurd h (by simp [Except.map])
  · split at h
    · exact absurd h (by simp [Except.map])
    · simp [Except.map, run_simulation, MonteCarloAuction.reset] at h
      obtain ⟨h1, h2⟩ := h
      rw [← h1, ← h2]

/-- C7 witness: a concrete seeded configuration whose run-reset-rerun pair
evaluates to two equal result sequences, with the construction hypothesis
discharged by evaluation. -/
theorem seeded_run_deterministic_witness : ([0] : List ℚ) = [0] :=
  seeded_run_deterministic.2 exParams 1 exGoodDist 7 g0 [0] [0] (by
    have hc : npIsClose (distValuesSum exGoodDist) 1 = true := by
      rw [npIsClose, decide_eq_true_eq]
      norm_num [distValuesSum, exGoodDist]
    simp [resetRerunResults, MonteCarloAuction.init, hc, Except.map, run_simulation,
      MonteCarloAuction.reset, runTrials, runTrial, sampleTrialPopulation, drawList,
      arangeFromOne, exParams, counterDist, zeroDist, npSeed, run_auction,
      CollateralPositionAuction.init, calculate_expected_utilities, utilityOf, pyGet,
      List.lookup, List.range_succ_eq_map])
